import Mathlib

/-!
Verification development for the JALE ALE meta-analysis orchestration code
(`jale/ale.py`, `jale/core/analyses/main_effect.py`, `jale/core/utils/input.py`).

The Python source is shallowly embedded: pandas DataFrames become lists of
records, file-system paths become strings built by the same concatenations the
source performs, and control flow that can terminate the process or raise is
made explicit with `Option`/`Except`/outcome types.
-/

namespace JALE

/-! ## Contrast pool overlap removal (`ale.py`, `setup_contrast_data` / `run_contrast_analysis`)

`setup_contrast_data` builds the two experiment pools with
`exp_all_df.loc[exp_idxs].reset_index(drop=True)`, so each returned DataFrame
carries the positional index `0 .. n-1`.  `run_contrast_analysis` then computes
`exp_overlap = set(exp_dfs[0].index) & set(exp_dfs[1].index)` and drops those
index labels from both pools.  A pool is modelled as a list of experiment ids
(the ids of the rows of `exp_all_df` the pool selects); its index after
`reset_index(drop=True)` is the list of positions `0 .. n-1`. -/

/-- Index labels of a pool after `reset_index(drop=True)`: positions `0 .. n-1`. -/
def resetIndexLabels {α : Type} (pool : List α) : List Nat :=
  List.range pool.length

/-- `df.drop(labels)`: remove the rows whose index label is in `labels`. -/
def dropLabels {α : Type} (pool : List α) (labels : List Nat) : List α :=
  (pool.enum.filter (fun p => decide (p.1 ∉ labels))).map (fun p => p.2)

/-- Lines 198-199 of `ale.py`:
`exp_overlap = set(exp_dfs[0].index) & set(exp_dfs[1].index)` followed by
`exp_dfs = [exp_dfs[0].drop(exp_overlap), exp_dfs[1].drop(exp_overlap)]`,
acting on pools whose index has been reset to positions by
`setup_contrast_data`. -/
def contrastOverlapDrop (pool1 pool2 : List Nat) : List Nat × List Nat :=
  let overlap := (resetIndexLabels pool1).filter (fun i => decide (i ∈ resetIndexLabels pool2))
  (dropLabels pool1 overlap, dropLabels pool2 overlap)

/-! ## Cache paths for the Monte Carlo null vectors
(`main_effect.py`, `main_effect` lines 181-212 and `probabilistic_ale` lines 299-335)

Paths are rendered relative to the project directory; `/` of `pathlib.Path`
becomes string concatenation with a separator. -/

/-- `pathlib`'s `/` on relative segments. -/
def pathJoin (a b : String) : String := a ++ "/" ++ b

/-- Path `main_effect` tests (and loads) for cached Monte Carlo null vectors:
`project_path = project_path / "Results/MainEffect"`, then
`project_path / f"Full/NullDistributions/.._montecarlo.pickle"`. -/
def mainEffect_mc_check_path (base meta_name : String) : String :=
  pathJoin (pathJoin base "Results/MainEffect")
    ("Full/NullDistributions/" ++ meta_name ++ "_montecarlo.pickle")

/-- Path `main_effect` writes the simulated Monte Carlo null vectors to. -/
def mainEffect_mc_write_path (base meta_name : String) : String :=
  pathJoin (pathJoin base "Results/MainEffect")
    ("Full/NullDistributions/" ++ meta_name ++ "_montecarlo.pickle")

/-- Path `probabilistic_ale` tests (and loads) for cached null vectors:
`project_path = project_path / "Results/MainEffect/CV"`, then
`project_path / f"CV/NullDistributions/.._montecarlo_\x7btarget_n\x7d.pickle"`. -/
def probAle_mc_check_path (base meta_name : String) (target_n : Nat) : String :=
  pathJoin (pathJoin base "Results/MainEffect/CV")
    ("CV/NullDistributions/" ++ meta_name ++ "_montecarlo_" ++ toString target_n ++ ".pickle")

/-- Path `probabilistic_ale` writes the simulated null vectors to:
`project_path / f"NullDistributions/.._montecarlo_\x7btarget_n\x7d.pickle"`. -/
def probAle_mc_write_path (base meta_name : String) (target_n : Nat) : String :=
  pathJoin (pathJoin base "Results/MainEffect/CV")
    ("NullDistributions/" ++ meta_name ++ "_montecarlo_" ++ toString target_n ++ ".pickle")

/-! ## Keyword parameters of `main_effect` and the prerequisite calls in `ale.py` -/

/-- The parameter names of `main_effect` (its `def` signature,
`main_effect.py` lines 30-40). -/
def mainEffect_param_names : List String :=
  ["project_path", "exp_df", "meta_name", "tfce_enabled", "cutoff_predict_enabled",
   "bin_steps", "cluster_forming_threshold", "monte_carlo_iterations", "nprocesses"]

/-- Keyword arguments of the automatic prerequisite call to `main_effect` in
`run_contrast_analysis` (`ale.py` lines 183-193). -/
def contrast_prereq_call_keywords : List String :=
  ["tfce_enabled", "cutoff_predict_enabled", "bin_steps", "cluster_forming_threshold",
   "monte_carlo_iterations", "nprocesses"]

/-- Keyword arguments of the automatic prerequisite call to `main_effect` in
`run_balanced_contrast` (`ale.py` lines 251-259). -/
def balanced_prereq_call_keywords : List String :=
  ["target_n", "monte_carlo_iterations", "sample_n", "nprocesses"]

/-! ## Result paths checked by `run_main_effect` versus paths written by `main_effect` -/

/-- The path `run_main_effect` tests to decide whether results already exist
(`ale.py` line 47): `Results/MainEffect/Volumes/\x7bmeta_name\x7d_cFWE.nii`. -/
def runMainEffect_check_path (meta_name : String) : String :=
  "Results/MainEffect/Volumes/" ++ meta_name ++ "_cFWE.nii"

/-- Every project-relative file path `main_effect` writes on a fresh run
(kernels via `np.save`, provenance csv, MA volumes via `np.savez_compressed`,
the nii volumes via `plot_and_save`, and the two pickles), with
`project_path` resolved to `Results/MainEffect`. -/
def mainEffect_written_paths (meta_name : String) (tfce_enabled : Bool) : List String :=
  let base := "Results/MainEffect"
  [pathJoin base (meta_name ++ "_kernels.npy"),
   pathJoin base (meta_name ++ "_included_experiments.csv"),
   pathJoin base (meta_name ++ "_ma.npz"),
   pathJoin base ("Full/Volumes/" ++ meta_name ++ "_foci.nii"),
   pathJoin base ("Full/Volumes/" ++ meta_name ++ "_ale.nii"),
   pathJoin base ("Full/NullDistributions/" ++ meta_name ++ "_histogram.pickle"),
   pathJoin base ("Full/Volumes/" ++ meta_name ++ "_z.nii"),
   pathJoin base ("Full/NullDistributions/" ++ meta_name ++ "_montecarlo.pickle"),
   pathJoin base ("Full/Volumes/" ++ meta_name ++ "_vFWE05.nii"),
   pathJoin base ("Full/Volumes/" ++ meta_name ++ "_cFWE05.nii")]
  ++ (if tfce_enabled then
        [pathJoin base ("Full/Volumes/" ++ meta_name ++ "_tfce_uncorrected.nii"),
         pathJoin base ("Full/Volumes/" ++ meta_name ++ "_TFCE05.nii")]
      else [])

/-! ## `determine_target_n` (`ale.py` lines 312-331) -/

/-- `determine_target_n(row_value, exp_dfs)`: with the explicit-size branch
(`int(row_value[1:])`, which raises on an unparsable string, hence `Option`)
and otherwise
`int(min(np.floor(np.mean((np.min(n), 17))), np.min(n) - 2))` for
`n = [len(exp_dfs[0]), len(exp_dfs[1])]`.  `np.mean` of the pair is exact
division by two; `np.floor` of that is integer division since the operand is
nonnegative. -/
def determine_target_n (row_value : String) (n1 n2 : Nat) : Option Int :=
  if row_value.length > 1 then
    (row_value.drop 1).toInt?
  else
    some (min ((((min n1 n2 : Nat) : Int) + 17) / 2) (((min n1 n2 : Nat) : Int) - 2))

/-! ## `run_probabilistic_ale` (`ale.py` lines 82-143)

The function first parses `target_n` from the row's type code
(`int(analysis_df.iloc[row_idx, 0][1:])` when the code has length > 1, else
`None`; `int` raises `ValueError` on an unparsable string), then returns early
if the result file exists, and finally either calls `probabilistic_ale` (when
`target_n` is truthy) or logs
`logger.warning(f"…: Need to specify subsampling N")` and returns. -/

/-- Observable outcome of one `run_probabilistic_ale` invocation. -/
inductive ProbAleOutcome where
  /-- `int(…)` raised `ValueError`; the exception propagates and kills the run. -/
  | crashed : ProbAleOutcome
  /-- Result file already exists; informational log and return. -/
  | alreadyExists : ProbAleOutcome
  /-- `probabilistic_ale` was invoked with this subsample size. -/
  | ranAnalysis (target_n : Int) : ProbAleOutcome
  /-- `logger.warning` with this message, then return; no analysis attempted. -/
  | warnedSkip (msg : String) : ProbAleOutcome
deriving DecidableEq

/-- Whether the outcome terminates the Python process. -/
def ProbAleOutcome.terminatesProcess : ProbAleOutcome → Bool
  | .crashed => true
  | _ => false

/-- Whether the outcome ran (any part of) the probabilistic analysis. -/
def ProbAleOutcome.ranAnyAnalysis : ProbAleOutcome → Bool
  | .ranAnalysis _ => true
  | _ => false

/-- Control flow of `run_probabilistic_ale` for one analysis row: `type_code`
is `analysis_df.iloc[row_idx, 0]`, `meta_name` is column 1, `result_exists` is
the `result_path.exists()` test. -/
def run_probabilistic_ale (type_code meta_name : String) (result_exists : Bool) :
    ProbAleOutcome :=
  if type_code.length > 1 then
    match (type_code.drop 1).toInt? with
    | none => .crashed
    | some n =>
      if result_exists then .alreadyExists
      else if n ≠ 0 then .ranAnalysis n
      else .warnedSkip (meta_name ++ ": Need to specify subsampling N")
  else
    if result_exists then .alreadyExists
    else .warnedSkip (meta_name ++ ": Need to specify subsampling N")

/-! ## Coordinate clamping (`input.py`, `transform_coordinates_to_voxel_space`)

After the affine transform the voxel coordinates are constrained by
`np.minimum(row["Coordinates"], [90, 108, 90])` — an elementwise upper clamp
only — and the function body contains no print/warning statement.  The
embedding returns the transformed coordinate lists together with the list of
lines the function prints to stdout. -/

/-- The per-coordinate constraint applied by the source:
`np.minimum(coordinate, [90, 108, 90])`. -/
def constrain_voxel_coordinate (c : Int × Int × Int) : Int × Int × Int :=
  (min c.1 90, min c.2.1 108, min c.2.2 90)

/-- The clamping stage of `transform_coordinates_to_voxel_space` on the
`Coordinates` column (one coordinate list per experiment row), paired with the
stdout lines it emits — the source emits none. -/
def transform_coordinates_clamp (coords : List (List (Int × Int × Int))) :
    List (List (Int × Int × Int)) × List String :=
  (coords.map (fun row => row.map constrain_voxel_coordinate), [])

/-- The warning line the repository's own test
(`test_input_utils.py::test_convert_2_voxel_space`) asserts on stdout. -/
def expected_oob_warning : String :=
  "WARNING: Coordinate detected outside of Brain boundaries!"

/-- Whether a voxel coordinate lies within the grid bounds (the grid is
91×109×91, thresholds 90, 108, 90). -/
def coordinate_in_bounds (c : Int × Int × Int) : Bool :=
  decide (0 ≤ c.1 ∧ c.1 ≤ 90 ∧ 0 ≤ c.2.1 ∧ c.2.1 ≤ 108 ∧ 0 ≤ c.2.2 ∧ c.2.2 ≤ 90)

/-! ## `check_coordinates_are_numbers` (`input.py` lines 94-135)

The function tests each of the columns x, y, z with
`pd.api.types.is_float_dtype`; for every column failing that test it prints
the labels (+2) of the rows whose values fail numeric coercion or are not
whole numbers, and if any column failed it calls `sys.exit()`; otherwise it
returns the DataFrame with its index reset. -/

/-- A cell of a coordinate column as pandas holds it. -/
inductive Cell where
  /-- A floating-point value. -/
  | fnum (q : ℚ) : Cell
  /-- An integer value. -/
  | inum (n : Int) : Cell
  /-- A text value. -/
  | snum (s : String) : Cell
  /-- A missing value (NaN). -/
  | null : Cell
deriving DecidableEq

/-- pandas dtype inference for a column, specialised to
`pd.api.types.is_float_dtype`: a column holding any text is `object` dtype;
otherwise a float or a missing value (NaN) makes it `float64`; an all-integer
column is `int64`.  Only the `float64` case satisfies `is_float_dtype`. -/
def is_float_dtype (col : List Cell) : Bool :=
  (col.all fun c => match c with | .snum _ => false | _ => true) &&
  (col.any fun c => match c with | .fnum _ => true | .null => true | _ => false)

/-- `pd.to_numeric(col, errors="coerce")` on one cell: floats and integers pass
through, numeric text parses, anything else becomes NaN (`none`). -/
def to_numeric_coerce : Cell → Option ℚ
  | .fnum q => some q
  | .inum n => some (n : ℚ)
  | .snum s => (s.toInt?).map (fun n => ((n : Int) : ℚ))
  | .null => none

/-- `non_integer_mask` for one cell: coerced to NaN, or `value % 1 != 0`. -/
def non_integer_cell (c : Cell) : Bool :=
  match to_numeric_coerce c with
  | none => true
  | some q => decide (q.den ≠ 1)

/-- The experiment table at the point `check_coordinates_are_numbers` runs:
the pandas index labels and the three coordinate columns, one entry per row. -/
structure CoordTable where
  /-- Index labels of the rows. -/
  idx : List Int
  /-- Column `x`. -/
  x : List Cell
  /-- Column `y`. -/
  y : List Cell
  /-- Column `z`. -/
  z : List Cell
deriving DecidableEq

/-- The row labels reported for one offending column:
`df.index[non_integer_mask] + 2`. -/
def rows_with_errors (idx : List Int) (col : List Cell) : List Int :=
  ((idx.zip col).filter (fun p => non_integer_cell p.2)).map (fun p => p.1 + 2)

/-- `df.reset_index(drop=True)`. -/
def reset_index (t : CoordTable) : CoordTable :=
  { t with idx := (List.range t.x.length).map Int.ofNat }

/-- `check_coordinates_are_numbers`: `Except.error` is `sys.exit()` carrying
the per-column reports printed before exiting; `Except.ok` is the normal
return of the index-reset DataFrame. -/
def check_coordinates_are_numbers (t : CoordTable) :
    Except (List (String × List Int)) CoordTable :=
  let cols := [("x", t.x), ("y", t.y), ("z", t.z)]
  let bad := cols.filter (fun c => ! is_float_dtype c.2)
  if bad.isEmpty then .ok (reset_index t)
  else .error (bad.map (fun c => (c.1, rows_with_errors t.idx c.2)))

/-- Whether a cell holds a numeric value (a float, an integer, or NaN — which
is itself a float). -/
def cell_is_numeric : Cell → Bool
  | .snum _ => false
  | _ => true

/-- A table whose three coordinate columns hold only integer values: every
cell is numeric, but the columns have `int64` dtype, not `float64`. -/
def all_integer_table : CoordTable :=
  { idx := [0], x := [.inum 50], y := [.inum 60], z := [.inum 70] }

/-- A table whose three coordinate columns have `float64` dtype. -/
def float_table : CoordTable :=
  { idx := [3, 5], x := [.fnum 1, .fnum 4], y := [.fnum 2, .null], z := [.null, .fnum 6] }

/-! ## `concat_coordinates` (`input.py` lines 138-210) -/

/-- One raw line of the experiment sheet as `concat_coordinates` receives it:
the `Articles` cell (missing on continuation lines of the block layout), the
`Subjects` cell, and the three coordinate values. -/
structure RawRow where
  /-- The `Articles` cell, `none` when the line leaves it blank. -/
  article : Option String
  /-- The `Subjects` cell. -/
  subjects : ℚ
  /-- Coordinate `x`. -/
  x : ℚ
  /-- Coordinate `y`. -/
  y : ℚ
  /-- Coordinate `z`. -/
  z : ℚ
deriving DecidableEq

/-- One consolidated experiment row produced by `concat_coordinates`. -/
structure ConcatRow where
  /-- The article identifier. -/
  article : Option String
  /-- The `Subjects` value of the article's first line. -/
  subjects : ℚ
  /-- The `Coordinates_mm` array, one triplet per focus. -/
  coordinates_mm : List (ℚ × ℚ × ℚ)
  /-- The stored `NumberOfFoci` value. -/
  numberOfFoci : Nat
deriving DecidableEq

/-- `np.array([xs, ys, zs]).T` as a list of coordinate triplets. -/
def coordinate_array (xs ys zs : List ℚ) : List (ℚ × ℚ × ℚ) :=
  xs.zip (ys.zip zs)

/-- Insert a string into a sorted list (ascending). -/
def insertSorted (a : String) : List String → List String
  | [] => [a]
  | b :: bs => if a ≤ b then a :: b :: bs else b :: insertSorted a bs

/-- Ascending sort of strings, as `groupby` orders its group keys. -/
def sortStrings : List String → List String
  | [] => []
  | a :: as => insertSorted a (sortStrings as)

/-- The group keys of `exp_info.groupby("Articles")`: the distinct article
names, in ascending order. -/
def article_keys (rows : List RawRow) : List String :=
  sortStrings ((rows.filterMap (fun r => r.article)).dedup)

/-- Branch of `concat_coordinates` for sheets where every line carries the
article name: group by article, keep each group's first line, collect the
group's x/y/z values into `Coordinates_mm = np.array([x, y, z]).T`, and set
`NumberOfFoci` to `Coordinates_mm.shape[0]`. -/
def concat_fully_filled (rows : List RawRow) : List ConcatRow :=
  (article_keys rows).map (fun a =>
    let g := rows.filter (fun r => decide (r.article = some a))
    let xs := g.map (fun r => r.x)
    let ys := g.map (fun r => r.y)
    let zs := g.map (fun r => r.z)
    { article := some a
      subjects := ((g.head?).map (fun r => r.subjects)).getD 0
      coordinates_mm := coordinate_array xs ys zs
      numberOfFoci := (coordinate_array xs ys zs).length })

/-- Branch of `concat_coordinates` for sheets where only each block's first
line carries the article name: `article_rows` are the positions holding an
article, `end_of_articles` delimits each block (`[x - 1 for x in
article_rows]` with the first element popped and the row count appended), and
each block's coordinates are concatenated with `NumberOfFoci = len(x)`.  When
no row holds an article the source raises `IndexError` on
`end_of_articles.pop(0)`, hence `none`. -/
def concat_blocks (rows : List RawRow) : Option (List ConcatRow) :=
  let article_rows := (rows.enum.filter (fun p => p.2.article.isSome)).map (fun p => p.1)
  if article_rows.isEmpty then none
  else
    let end_of_articles := (article_rows.drop 1).map (fun i => i - 1) ++ [rows.length]
    some ((article_rows.zip end_of_articles).map (fun se =>
      let block := (rows.drop se.1).take (se.2 + 1 - se.1)
      let xs := block.map (fun r => r.x)
      let ys := block.map (fun r => r.y)
      let zs := block.map (fun r => r.z)
      { article := ((rows.drop se.1).head?).bind (fun r => r.article)
        subjects := (((rows.drop se.1).head?).map (fun r => r.subjects)).getD 0
        coordinates_mm := coordinate_array xs ys zs
        numberOfFoci := xs.length }))

/-- `concat_coordinates`: dispatch on `exp_info["Articles"].isna().sum() == 0`
between the fully-filled layout and the first-line-only block layout. -/
def concat_coordinates (rows : List RawRow) : Option (List ConcatRow) :=
  if rows.all (fun r => r.article.isSome) then some (concat_fully_filled rows)
  else concat_blocks rows

/-- A two-line block-layout sheet: one article whose block has two foci. -/
def c9_example_rows : List RawRow :=
  [{ article := some "a", subjects := 10, x := 1, y := 2, z := 3 },
   { article := none, subjects := 0, x := 4, y := 5, z := 6 }]

/-! ## Threshold selection in `main_effect` (`main_effect.py` lines 177-216) -/

/-- Ascending insertion into a sorted list of rationals. -/
def insertRat (a : ℚ) : List ℚ → List ℚ
  | [] => [a]
  | b :: bs => if a ≤ b then a :: b :: bs else b :: insertRat a bs

/-- Ascending sort of rationals (numpy sorts the data before interpolating). -/
def sortRat : List ℚ → List ℚ
  | [] => []
  | a :: as => insertRat a (sortRat as)

/-- `np.percentile(xs, 95)` with numpy's default linear interpolation: sort
the data, take rank `(n-1)·95/100`, and interpolate between the neighbouring
order statistics (numpy errors on empty data; here the empty case defaults
to 0). -/
def percentile95 (xs : List ℚ) : ℚ :=
  let s := sortRat xs
  let rank : ℚ := ((s.length : ℚ) - 1) * 95 / 100
  let lo : Nat := rank.floor.toNat
  let frac : ℚ := rank - (lo : ℚ)
  s.getD lo 0 + frac * (s.getD (lo + 1) (s.getD lo 0) - s.getD lo 0)

/-- The three Monte Carlo null vectors, as collected by
`vfwe_null, cfwe_null, tfce_null = zip(*Parallel(…)(delayed(compute_monte_carlo_null)(…)
for i in range(monte_carlo_iterations)))`: the per-iteration triples
(max voxel ALE, max cluster mass, max TFCE) transposed into three vectors. -/
def monte_carlo_null_vectors (iterations : Nat) (mcNull : Nat → ℚ × ℚ × ℚ) :
    List ℚ × List ℚ × List ℚ :=
  (((List.range iterations).map mcNull).map (fun t => t.1),
   ((List.range iterations).map mcNull).map (fun t => t.2.1),
   ((List.range iterations).map mcNull).map (fun t => t.2.2))

/-- Threshold selection of `main_effect`: with cutoff prediction enabled the
ML-predicted triple is used unchanged; otherwise the null vectors are loaded
from the cache when present or simulated over `monte_carlo_iterations`
iterations, and each threshold is `np.percentile(vec, 95)` of its vector. -/
def mainEffect_thresholds (cutoff_predict_enabled : Bool) (predicted : ℚ × ℚ × ℚ)
    (cached : Option (List ℚ × List ℚ × List ℚ)) (monte_carlo_iterations : Nat)
    (mcNull : Nat → ℚ × ℚ × ℚ) : ℚ × ℚ × ℚ :=
  if cutoff_predict_enabled then predicted
  else
    let nulls := match cached with
      | some ns => ns
      | none => monte_carlo_null_vectors monte_carlo_iterations mcNull
    (percentile95 nulls.1, percentile95 nulls.2.1, percentile95 nulls.2.2)

/-- A concrete per-iteration null triple for witnesses. -/
def c6_mc : Nat → ℚ × ℚ × ℚ := fun i => ((i : ℚ), (i : ℚ) + 1, (i : ℚ) * 2)

/-! # Theorems -/

/-- **C1.** Before the contrast computation, `run_contrast_analysis` is supposed
to remove every experiment present in both pools.  Because
`setup_contrast_data` resets both pools' indices to positions, the
set-intersection of indices is just `\x7b0, …, min(n1,n2)-1\x7d` and the drop removes
rows by position: with pool1 = experiments [10, 11] and
pool2 = experiments [12, 13, 11], the shared experiment 11 survives in the
second pool (and the first pool is emptied entirely), so the overlap removal
does not remove every shared experiment from each pool. -/
theorem claim_C1_overlap_drop_leaves_shared_experiment :
    contrastOverlapDrop [10, 11] [12, 13, 11] = ([], [11]) ∧
    11 ∈ [10, 11] ∧ 11 ∈ [12, 13, 11] ∧
    11 ∈ (contrastOverlapDrop [10, 11] [12, 13, 11]).2 := by
  decide

/-- **C2.** The Monte Carlo null-vector cache: in `main_effect` the path tested
for a cached pickle is exactly the path the pickle is written to, but in
`probabilistic_ale` the tested path contains a doubled `CV` segment
(`Results/MainEffect/CV/CV/NullDistributions/…`) while the write goes to
`Results/MainEffect/CV/NullDistributions/…`, so the cached file is never found
on a later invocation with the same name and target_n. -/
theorem claim_C2_cache_path_mismatch :
    (∀ base meta_name, mainEffect_mc_check_path base meta_name
        = mainEffect_mc_write_path base meta_name) ∧
    probAle_mc_check_path "proj" "meta" 10 ≠ probAle_mc_write_path "proj" "meta" 10 := by
  refine ⟨fun base meta_name => rfl, ?_⟩
  decide

/-- **C3.** The automatic prerequisite recovery: `run_contrast_analysis` calls
`main_effect` only with keyword parameters that `main_effect` accepts, but the
prerequisite call in `run_balanced_contrast` passes `target_n` (and `sample_n`),
which are not parameters of `main_effect`, so that call raises a `TypeError`
instead of transparently running the prerequisite. -/
theorem claim_C3_balanced_prereq_bad_keyword :
    (∀ k ∈ contrast_prereq_call_keywords, k ∈ mainEffect_param_names) ∧
    "target_n" ∈ balanced_prereq_call_keywords ∧
    "target_n" ∉ mainEffect_param_names ∧
    "sample_n" ∈ balanced_prereq_call_keywords ∧
    "sample_n" ∉ mainEffect_param_names := by
  decide

/-- **C4.** `transform_coordinates_to_voxel_space` constrains voxel coordinates
only by an elementwise upper `min` with (90, 108, 90) and prints nothing: on
the voxel coordinate (-205, 72, 60) — the test's own out-of-bounds input, the
mm coordinate 500 mapped through the MNI affine — the coordinate is returned
unchanged and still out of bounds, and the warning line the repository's test
asserts is never emitted (the emitted-output list is empty), refuting both the
clamp-to-bounds and the warning part of the claim. -/
theorem claim_C4_no_warning_and_no_lower_clamp :
    transform_coordinates_clamp [[(-205, 72, 60)]] = ([[(-205, 72, 60)]], []) ∧
    coordinate_in_bounds (-205, 72, 60) = false ∧
    expected_oob_warning ∉ (transform_coordinates_clamp [[(-205, 72, 60)]]).2 ∧
    constrain_voxel_coordinate (95, 120, 60) = (90, 108, 60) := by
  refine ⟨?_, by decide, ?_, by decide⟩
  · simp [transform_coordinates_clamp, constrain_voxel_coordinate]
  · simp [transform_coordinates_clamp]

/-- **C5** (counterexample). A probabilistic ALE row whose type code is `"P"`
(no parsable subsampling size) does not terminate the process: the outcome is a
logged warning followed by a normal return, not a fatal error, contradicting
the claim that the condition is fatal. -/
theorem claim_C5_counterexample :
    run_probabilistic_ale "P" "meta" false
      = .warnedSkip "meta: Need to specify subsampling N" ∧
    (run_probabilistic_ale "P" "meta" false).terminatesProcess = false := by
  decide

/-- **C5** (amended). When a probabilistic ALE row's type code has length ≤ 1
(so no subsampling size can be parsed), the condition is reported to the user
as a logged warning naming the meta-analysis and no analysis is attempted for
that row, but the process does not terminate — `run_probabilistic_ale` returns
and the batch loop continues with later rows. -/
theorem claim_C5_amended_warn_and_skip (type_code meta_name : String)
    (h : type_code.length ≤ 1) :
    run_probabilistic_ale type_code meta_name false
      = .warnedSkip (meta_name ++ ": Need to specify subsampling N") ∧
    ∀ result_exists : Bool,
      (run_probabilistic_ale type_code meta_name result_exists).terminatesProcess = false ∧
      (run_probabilistic_ale type_code meta_name result_exists).ranAnyAnalysis = false := by
  have hgt : ¬ type_code.length > 1 := by omega
  refine ⟨by simp [run_probabilistic_ale, hgt], fun result_exists => ?_⟩
  cases result_exists <;>
    simp [run_probabilistic_ale, hgt, ProbAleOutcome.terminatesProcess,
      ProbAleOutcome.ranAnyAnalysis]

/-- Witness for the amended C5 at type code `"P"`, meta-analysis `"meta"`. -/
theorem claim_C5_amended_witness :
    run_probabilistic_ale "P" "meta" false
      = .warnedSkip ("meta" ++ ": Need to specify subsampling N") ∧
    (run_probabilistic_ale "P" "meta" true).terminatesProcess = false ∧
    (run_probabilistic_ale "P" "meta" true).ranAnyAnalysis = false :=
  ⟨(claim_C5_amended_warn_and_skip "P" "meta" (by decide)).1,
   ((claim_C5_amended_warn_and_skip "P" "meta" (by decide)).2 true).1,
   ((claim_C5_amended_warn_and_skip "P" "meta" (by decide)).2 true).2⟩

/-- **C7.** The idempotency check of `run_main_effect` tests
`Results/MainEffect/Volumes/\x7bmeta_name\x7d_cFWE.nii`, but `main_effect` never
writes that path (it writes `Results/MainEffect/Full/Volumes/…_cFWE05.nii`):
for meta-analysis name "meta" the checked path is not among the written paths,
whether or not TFCE is enabled, so a second invocation never short-circuits. -/
theorem claim_C7_skip_path_never_written :
    ∀ tfce_enabled : Bool,
      runMainEffect_check_path "meta" ∉ mainEffect_written_paths "meta" tfce_enabled := by
  decide

/-- **C10.** `determine_target_n` on a type-code cell of length 1 returns
`min(floor((min(n1,n2)+17)/2), min(n1,n2)-2)`, which is at most
`min(n1,n2) - 2` and strictly smaller than the smaller pool size. -/
theorem claim_C10_determine_target_n (row_value : String) (n1 n2 : Nat)
    (h : row_value.length = 1) :
    determine_target_n row_value n1 n2
      = some (min ((((min n1 n2 : Nat) : Int) + 17) / 2) (((min n1 n2 : Nat) : Int) - 2)) ∧
    min ((((min n1 n2 : Nat) : Int) + 17) / 2) (((min n1 n2 : Nat) : Int) - 2)
      ≤ ((min n1 n2 : Nat) : Int) - 2 ∧
    min ((((min n1 n2 : Nat) : Int) + 17) / 2) (((min n1 n2 : Nat) : Int) - 2)
      < ((min n1 n2 : Nat) : Int) := by
  refine ⟨?_, min_le_right _ _, lt_of_le_of_lt (min_le_right _ _) ?_⟩
  · simp [determine_target_n, h]
  · omega

/-- Witness for C10 at `row_value = "B"`, `n1 = 10`, `n2 = 12`. -/
theorem claim_C10_witness :
    determine_target_n "B" 10 12
      = some (min ((((min 10 12 : Nat) : Int) + 17) / 2) (((min 10 12 : Nat) : Int) - 2)) ∧
    min ((((min 10 12 : Nat) : Int) + 17) / 2) (((min 10 12 : Nat) : Int) - 2)
      ≤ ((min 10 12 : Nat) : Int) - 2 ∧
    min ((((min 10 12 : Nat) : Int) + 17) / 2) (((min 10 12 : Nat) : Int) - 2)
      < ((min 10 12 : Nat) : Int) :=
  claim_C10_determine_target_n "B" 10 12 (by decide)

/-- **C6.** When cutoff prediction is disabled in `main_effect`, the
voxel-wise, cluster-wise, and TFCE thresholds each equal the 95th percentile
of the corresponding Monte Carlo null vector: of the cached vectors when a
cache exists, and otherwise of the max-voxel / max-cluster-mass / max-TFCE
values collected across `monte_carlo_iterations` independent iterations (each
collected vector having exactly `monte_carlo_iterations` entries). -/
theorem claim_C6_thresholds_are_95th_percentiles
    (cutoff_predict_enabled : Bool) (predicted : ℚ × ℚ × ℚ)
    (monte_carlo_iterations : Nat) (mcNull : Nat → ℚ × ℚ × ℚ)
    (h : cutoff_predict_enabled = false) :
    (∀ vfwe_null cfwe_null tfce_null : List ℚ,
      mainEffect_thresholds cutoff_predict_enabled predicted
          (some (vfwe_null, cfwe_null, tfce_null)) monte_carlo_iterations mcNull
        = (percentile95 vfwe_null, percentile95 cfwe_null, percentile95 tfce_null)) ∧
    mainEffect_thresholds cutoff_predict_enabled predicted none
        monte_carlo_iterations mcNull
      = (percentile95 ((List.range monte_carlo_iterations).map (fun i => (mcNull i).1)),
         percentile95 ((List.range monte_carlo_iterations).map (fun i => (mcNull i).2.1)),
         percentile95 ((List.range monte_carlo_iterations).map (fun i => (mcNull i).2.2))) ∧
    ((List.range monte_carlo_iterations).map (fun i => (mcNull i).1)).length
      = monte_carlo_iterations := by
  subst h
  refine ⟨fun v c t => rfl, ?_, by simp⟩
  simp [mainEffect_thresholds, monte_carlo_null_vectors, List.map_map, Function.comp_def]

/-- Witness for C6 with prediction disabled, three iterations, and a concrete
cached triple of null vectors. -/
theorem claim_C6_witness :
    mainEffect_thresholds false (0, 0, 0) (some ([1, 3, 2], [5, 4, 6], [7, 9, 8])) 3 c6_mc
      = (percentile95 [1, 3, 2], percentile95 [5, 4, 6], percentile95 [7, 9, 8]) ∧
    mainEffect_thresholds false (0, 0, 0) none 3 c6_mc
      = (percentile95 ((List.range 3).map (fun i => (c6_mc i).1)),
         percentile95 ((List.range 3).map (fun i => (c6_mc i).2.1)),
         percentile95 ((List.range 3).map (fun i => (c6_mc i).2.2))) ∧
    ((List.range 3).map (fun i => (c6_mc i).1)).length = 3 :=
  ⟨(claim_C6_thresholds_are_95th_percentiles false (0, 0, 0) 3 c6_mc rfl).1
      [1, 3, 2] [5, 4, 6] [7, 9, 8],
   (claim_C6_thresholds_are_95th_percentiles false (0, 0, 0) 3 c6_mc rfl).2.1,
   (claim_C6_thresholds_are_95th_percentiles false (0, 0, 0) 3 c6_mc rfl).2.2⟩

/-- **C8** (counterexample). A table whose three coordinate columns hold only
integer values: every cell is numeric, yet `check_coordinates_are_numbers`
terminates the process (the columns are `int64`, not `float64`), refuting the
claimed "terminates iff some coordinate column contains non-numeric values". -/
theorem claim_C8_counterexample :
    (check_coordinates_are_numbers all_integer_table).isOk = false ∧
    (all_integer_table.x ++ all_integer_table.y ++ all_integer_table.z).all
      cell_is_numeric = true := by
  decide

/-- **C8** (amended). `check_coordinates_are_numbers` terminates the process
(reporting per offending column) if and only if one of the coordinate columns
x, y, z is not of float dtype (under pandas dtype inference: text makes a
column `object`, an all-integer column without missing values is `int64`); for
every table whose three coordinate columns are float dtype it returns the
DataFrame unchanged except for an index reset. -/
theorem claim_C8_amended_float_dtype_check (t : CoordTable) :
    ((check_coordinates_are_numbers t).isOk
      = (is_float_dtype t.x && is_float_dtype t.y && is_float_dtype t.z)) ∧
    ((is_float_dtype t.x && is_float_dtype t.y && is_float_dtype t.z) = true →
      check_coordinates_are_numbers t = .ok (reset_index t)) := by
  cases hx : is_float_dtype t.x <;> cases hy : is_float_dtype t.y <;>
    cases hz : is_float_dtype t.z <;>
      simp [check_coordinates_are_numbers, hx, hy, hz, Except.isOk, Except.toBool]

/-- Witness for the amended C8 at a concrete float-dtype table. -/
theorem claim_C8_amended_witness :
    ((check_coordinates_are_numbers float_table).isOk
      = (is_float_dtype float_table.x && is_float_dtype float_table.y
          && is_float_dtype float_table.z)) ∧
    check_coordinates_are_numbers float_table = .ok (reset_index float_table) :=
  ⟨(claim_C8_amended_float_dtype_check float_table).1,
   (claim_C8_amended_float_dtype_check float_table).2 (by decide)⟩

/-- The coordinate array built from one group's columns has as many triplets
as the group has lines. -/
theorem coordinate_array_length_of_group (g : List RawRow) :
    (coordinate_array (g.map (fun r => r.x)) (g.map (fun r => r.y))
      (g.map (fun r => r.z))).length = g.length := by
  simp [coordinate_array]

/-- **C9.** Every experiment row produced by `concat_coordinates` — in both
the fully-filled layout and the first-line-only block layout — stores a
`NumberOfFoci` equal to the number of coordinate triplets in its concatenated
`Coordinates_mm` array. -/
theorem claim_C9_foci_count_matches_coordinates (rows : List RawRow)
    (res : List ConcatRow) (h : concat_coordinates rows = some res) :
    ∀ cr ∈ res, cr.numberOfFoci = cr.coordinates_mm.length := by
  intro cr hcr
  rw [concat_coordinates] at h
  split_ifs at h with hall
  · injection h with h2
    subst h2
    rw [concat_fully_filled] at hcr
    rcases List.mem_map.mp hcr with ⟨a, _, rfl⟩
    simp
  · rw [concat_blocks] at h
    split_ifs at h
    injection h with h2
    subst h2
    rcases List.mem_map.mp hcr with ⟨se, _, rfl⟩
    simp [coordinate_array]

/-- Witness for C9 on the concrete two-line block-layout sheet. -/
theorem claim_C9_witness :
    ({ article := some "a", subjects := 10, coordinates_mm := [(1, 2, 3), (4, 5, 6)],
        numberOfFoci := 2 } : ConcatRow).numberOfFoci
      = ({ article := some "a", subjects := 10,
            coordinates_mm := [(1, 2, 3), (4, 5, 6)],
            numberOfFoci := 2 } : ConcatRow).coordinates_mm.length :=
  claim_C9_foci_count_matches_coordinates c9_example_rows
    [{ article := some "a", subjects := 10, coordinates_mm := [(1, 2, 3), (4, 5, 6)],
        numberOfFoci := 2 }]
    (by decide) _ (by simp)

end JALE
